import Mathlib

/-!
Shallow embedding of the vmsh controller core (src/device/mod.rs,
src/wrap_syscall.rs, src/kvm/mod.rs) and proofs about its
discovery, MMIO-exit decoding, cross-process memory I/O and
ptrace-interception logic.

Fallible Rust code is embedded as `Except String`; a Rust panic
(failed assert, out-of-bounds index, unwrap) is embedded as an
`Except.error` as well, since both are fatal to the operation.
External system effects (waitpid, process_vm_readv, ptrace register
reads) are passed in as explicit oracle arguments.
-/

namespace Vmsh

/-- Boolean test for the error arm of an `Except`. -/
def isErr {α : Type} : Except String α → Bool
  | .error _ => true
  | .ok _ => false

/-! ## Device placement constants (src/device/mod.rs) -/

/-- Rust: `const FIRST_ADDR_PAST_32BITS: u64 = 1 << 32;` -/
def FIRST_ADDR_PAST_32BITS : Nat := 2 ^ 32

/-- Rust: `const MEM_32BIT_GAP_SIZE: u64 = 768 << 20;` -/
def MEM_32BIT_GAP_SIZE : Nat := 768 * 2 ^ 20

/-- Rust: `pub const MMIO_MEM_START: u64 = FIRST_ADDR_PAST_32BITS - MEM_32BIT_GAP_SIZE;` -/
def MMIO_MEM_START : Nat := FIRST_ADDR_PAST_32BITS - MEM_32BIT_GAP_SIZE

/-- An MMIO bus range: base guest-physical address and byte length.
Models `vm_device::bus::MmioRange` as used by `Device::new`; the
external constructor validation (nonzero size) is not re-modelled. -/
structure MmioRange where
  base : Nat
  size : Nat
  deriving DecidableEq

/-- Mirror of `crate::device::virtio::MmioConfig { range, gsi }`. -/
structure MmioConfig where
  range : MmioRange
  gsi : Nat
  deriving DecidableEq

/-- The MMIO configuration built by `Device::new` (src/device/mod.rs):
`let range = MmioRange::new(MmioAddress(MMIO_MEM_START), 0x1000).unwrap();`
`let mmio_cfg = MmioConfig { range, gsi: 5 };` -/
def device_new_mmio_cfg : MmioConfig :=
  { range := { base := MMIO_MEM_START, size := 0x1000 }, gsi := 5 }

/-! ## kvm_run and MMIO-exit decoding (src/wrap_syscall.rs) -/

/-- Kernel ABI constant `KVM_EXIT_MMIO` from the kvm bindings. -/
def KVM_EXIT_MMIO : Nat := 6

/-- Mirror of `kvm_run__bindgen_ty_1__bindgen_ty_6`, the raw mmio arm of
the `kvm_run` union: `phys_addr: u64`, `is_write: u8`, `data: [u8; 8]`,
`len: u32`.  The fixed array type is rendered as a list with a length
fact. -/
structure MmioRwRaw where
  phys_addr : Nat
  is_write : Nat
  data : List Nat
  len : Nat
  data_len : data.length = 8

/-- Mirror of the part of `kvm_bindings::kvm_run` that the embedded code
reads: `exit_reason: u32` and the union, represented by its mmio
interpretation (the only arm the source ever reads). -/
structure KvmRun where
  exit_reason : Nat
  mmio : MmioRwRaw

/-- Mirror of `struct MmioRw` (src/wrap_syscall.rs). -/
structure MmioRw where
  addr : Nat
  is_write : Bool
  data : List Nat
  len : Nat
  data_len : data.length = 8

/-- Rust `MmioRw::new(raw)`: copies the raw fields verbatim; the source
comments that `len` is NOT sanity checked here. -/
def MmioRw.new (raw : MmioRwRaw) : MmioRw :=
  { addr := raw.phys_addr
    is_write := raw.is_write != 0
    data := raw.data
    len := raw.len
    data_len := raw.data_len }

/-- Rust `MmioRw::from(kvm_run)`: yields a decoded `MmioRw` exactly when
`exit_reason == KVM_EXIT_MMIO`, else `None`. -/
def MmioRw.fromKvmRun (kvm_run : KvmRun) : Option MmioRw :=
  if kvm_run.exit_reason = KVM_EXIT_MMIO then
    some (MmioRw.new kvm_run.mmio)
  else
    none

/-- Rust `MmioRw::data(&self)` returns the slice `&self.data[..self.len]`.
Slicing an 8-byte array out of bounds panics in Rust; the panic is
embedded as `none`. -/
def MmioRw.dataSlice (m : MmioRw) : Option (List Nat) :=
  if m.len ≤ m.data.length then some (m.data.take m.len) else none

/-! ## KVM fd discovery (src/kvm/mod.rs) -/

/-- One entry of the target fd table as consumed by `find_vm_fd`:
the fd number and the result of
`fd.path.file_name().unwrap_or("").to_str().unwrap_or("")`
on the `/proc/pid/fd` symlink target. -/
structure FdInfo where
  fd_num : Nat
  name : String
  deriving DecidableEq

/-- Mirror of `struct VCPU { idx: usize, fd_num: RawFd }`. -/
structure VCPU where
  idx : Nat
  fd_num : Nat
  deriving DecidableEq

/-- Text after the last separator character, as produced by
`name.rsplitn(2, sep).collect()[0]`; the whole text when the
separator does not occur. -/
def afterLastSep (sep : Char) (l : List Char) : List Char :=
  (l.reverse.takeWhile (fun c => c != sep)).reverse

/-- Numeric value of a list of decimal digit characters. -/
def digitsToNat (l : List Char) : Nat :=
  l.foldl (fun n c => n * 10 + (c.toNat - 48)) 0

/-- Model of Rust `str::parse::<usize>()`: an optional leading plus
sign, then one or more decimal digits, value below `2 ^ 64`. -/
def parseUsize (s : List Char) : Option Nat :=
  let t := match s with
    | '+' :: rest => rest
    | _ => s
  if t.isEmpty then none
  else if t.all Char.isDigit then
    let n := digitsToNat t
    if n < 2 ^ 64 then some n else none
  else none

/-- The fd-scanning loop body of `find_vm_fd`: walks the fd table in
order, collecting kvm-vm fd numbers and parsed VCPU entries; a VCPU
index that fails to parse aborts with an error (Rust `try_with!`). -/
def collectFds : List FdInfo → Except String (List Nat × List VCPU)
  | [] => .ok ([], [])
  | fd :: rest =>
    if fd.name.data == "anon_inode:kvm-vm".data then
      match collectFds rest with
      | .error e => .error e
      | .ok (vms, vcpus) => .ok (fd.fd_num :: vms, vcpus)
    else if List.isPrefixOf "anon_inode:kvm-vcpu:".data fd.name.data then
      match parseUsize (afterLastSep ':' fd.name.data) with
      | none => .error "cannot parse number"
      | some idx =>
        match collectFds rest with
        | .error e => .error e
        | .ok (vms, vcpus) => .ok (vms, ⟨idx, fd.fd_num⟩ :: vcpus)
    else collectFds rest

/-- Helper for `dedupByIdx`: drops elements whose `idx` equals the `idx`
of the last retained element, matching `Vec::dedup_by_key` semantics. -/
def dedupByIdxAux (prev : VCPU) : List VCPU → List VCPU
  | [] => []
  | v :: rest =>
    if prev.idx = v.idx then dedupByIdxAux prev rest
    else v :: dedupByIdxAux v rest

/-- Rust `vcpu_fds.dedup_by_key(|vcpu| vcpu.idx)`: removes all but the
first of consecutive elements sharing an index. -/
def dedupByIdx : List VCPU → List VCPU
  | [] => []
  | v :: rest => v :: dedupByIdxAux v rest

/-- Rust `find_vm_fd(handle)` (src/kvm/mod.rs): scans the fd table, then
rejects the result when `dedup_by_key` on the VCPU indices removed
anything (consecutive duplicate indices). -/
def find_vm_fd (fds : List FdInfo) : Except String (List Nat × List VCPU) :=
  match collectFds fds with
  | .error e => .error e
  | .ok (vm_fds, vcpu_fds) =>
    if (dedupByIdx vcpu_fds).length ≠ vcpu_fds.length then
      .error "found multiple vcpus with same id, assume multiple VMs in same hypervisor. This is not supported yet"
    else .ok (vm_fds, dedupByIdx vcpu_fds)

/-- Mirror of `struct Mapping` (crate::proc, not in the sources).
Modelled from the spec: a virtual region of the target with host
virtual `[start, end)`; only `start` is consumed by the embedded code,
the remaining fields are elided. -/
structure Mapping where
  start : Nat
  deriving DecidableEq

/-- Mirror of `struct Hypervisor` (src/kvm/mod.rs). -/
structure Hypervisor where
  pid : Nat
  vm_fd : Nat
  vcpus : List VCPU
  mappings : List Mapping
  deriving DecidableEq

/-- Rust `get_hypervisor(pid)` (src/kvm/mod.rs), with the results of
`openpid`, `handle.fds()` and `handle.maps()` supplied as the fd table
and the mapping list: runs `find_vm_fd`, then rejects zero VM fds,
multiple VM fds, and zero VCPUs, and otherwise returns the handle. -/
def get_hypervisor (pid : Nat) (fds : List FdInfo) (maps : List Mapping) :
    Except String Hypervisor :=
  match find_vm_fd fds with
  | .error e => .error e
  | .ok (vm_fds, vcpus) =>
    match vm_fds with
    | [] => .error "no VMs found"
    | vm_fd :: vm_rest =>
      if vm_rest ≠ [] then .error "multiple VMs found, this is not supported yet."
      else if vcpus = [] then .error "found KVM instance but no VCPUs"
      else .ok { pid := pid, vm_fd := vm_fd, vcpus := vcpus, mappings := maps }

/-! ## Registers and Tracee::get_regs (src/kvm/mod.rs) -/

/-- Mirror of `crate::cpu::Regs`, with the exact field list that
`Tracee::get_regs` constructs (src/kvm/mod.rs lines 115-147). -/
structure Regs where
  r15 : Nat
  r14 : Nat
  r13 : Nat
  r12 : Nat
  rbp : Nat
  rbx : Nat
  r11 : Nat
  r10 : Nat
  r9 : Nat
  r8 : Nat
  rax : Nat
  rcx : Nat
  rdx : Nat
  rsi : Nat
  rdi : Nat
  orig_rax : Nat
  rip : Nat
  cs : Nat
  eflags : Nat
  rsp : Nat
  ss : Nat
  fs_base : Nat
  gs_base : Nat
  ds : Nat
  es : Nat
  fs : Nat
  gs : Nat
  deriving DecidableEq

/-- The all-zero register file that `Tracee::get_regs` builds. -/
def regsZero : Regs :=
  { r15 := 0, r14 := 0, r13 := 0, r12 := 0, rbp := 0, rbx := 0
    r11 := 0, r10 := 0, r9 := 0, r8 := 0, rax := 0, rcx := 0
    rdx := 0, rsi := 0, rdi := 0, orig_rax := 0, rip := 0, cs := 0
    eflags := 0, rsp := 0, ss := 0, fs_base := 0, gs_base := 0
    ds := 0, es := 0, fs := 0, gs := 0 }

/-- Rust `Tracee::get_regs(&self, vcpu)` (src/kvm/mod.rs): builds a
`Regs` with every field zero and returns it in `Ok`; the target VCPU
argument is never consulted. -/
def Tracee.get_regs (vcpu : VCPU) : Except String Regs :=
  Except.ok regsZero

/-- Modelled from the spec: `Regs::get_syscall_params` lives in
src/cpu.rs, which is not among the sources; the spec reads the stopped
registers as rax = syscall number and arg1 = the ioctl request, so the
triple is rendered as `(rax, rdi, rsi)` following the x86-64 syscall
argument convention (rdi = fd, rsi = request). -/
def Regs.get_syscall_params (r : Regs) : Nat × Nat × Nat :=
  (r.rax, r.rdi, r.rsi)

/-! ## Cross-process memory I/O (src/kvm/mod.rs) -/

/-- Rust `Hypervisor::read::<T>(addr)`: issues one
`process_vm_readv` with a single remote iovec of length
`size_of::<T>()`; `readv addr len` is the oracle outcome of that call,
either an OS error or the pair (bytes transferred, bytes read).  An OS
error is propagated (`try_with!`), and a transfer count different from
`size_of::<T>()` is rejected (`bail!`). -/
def hypervisor_read (readv : Nat → Nat → Except String (Nat × List Nat))
    (addr sizeOfT : Nat) : Except String (List Nat) :=
  match readv addr sizeOfT with
  | .error e => .error ("cannot read hypervisor memory: " ++ e)
  | .ok (f, bytes) =>
    if f ≠ sizeOfT then
      .error "process_vm_readv read fewer bytes than expected"
    else .ok bytes

/-- Rust `Hypervisor::write::<T>(addr, val)`: issues one
`process_vm_writev` of the `size_of::<T>()` bytes of `val` (rendered
as the byte list `val`); `writev addr val` is the oracle outcome,
either an OS error or the count of bytes transferred.  An OS error is
propagated, and a count different from `val.length` is rejected. -/
def hypervisor_write (writev : Nat → List Nat → Except String Nat)
    (addr : Nat) (val : List Nat) : Except String Unit :=
  match writev addr val with
  | .error e => .error ("cannot write hypervisor memory: " ++ e)
  | .ok f =>
    if f ≠ val.length then
      .error "process_vm_writev wrote fewer bytes than expected"
    else .ok ()

/-! ## KvmRunWrapper (src/wrap_syscall.rs) -/

/-- Rust `SYS_ioctl` on x86-64 Linux (the source comments `= 16`). -/
def SYS_ioctl : Nat := 16

/-- Rust `ioctls::KVM_RUN()` (the source comments `= 0xae80`). -/
def KVM_RUN : Nat := 0xae80

/-- Mirror of `struct Thread` (src/wrap_syscall.rs), the per-VCPU-thread
interception state; the `ptrace::Thread` handle is rendered by its
tid. -/
structure Thread where
  tid : Nat
  vcpu_map : Mapping
  is_running : Bool
  in_syscall : Bool
  deriving DecidableEq

/-- Rust `Thread::new(ptthread, vcpu_map)`: starts with
`is_running = false` and `in_syscall = false` (the source notes that
ptrace in practice never attaches mid-syscall). -/
def Thread.new (tid : Nat) (vcpu_map : Mapping) : Thread :=
  { tid := tid, vcpu_map := vcpu_map, is_running := false, in_syscall := false }

/-- Rust `Thread::toggle_in_syscall`. -/
def Thread.toggle_in_syscall (t : Thread) : Thread :=
  { t with in_syscall := !t.in_syscall }

/-- Mirror of `nix::sys::wait::WaitStatus`. -/
inductive WaitStatus where
  | exited (pid : Nat) (status : Nat)
  | signaled (pid : Nat) (signal : Nat) (coredump : Bool)
  | stopped (pid : Nat) (signal : Nat)
  | ptraceEvent (pid : Nat) (signal : Nat) (event : Nat)
  | ptraceSyscall (pid : Nat)
  | continued (pid : Nat)
  | stillAlive
  deriving DecidableEq

/-- Mirror of `struct KvmRunWrapper` (src/wrap_syscall.rs). -/
structure KvmRunWrapper where
  process_idx : Nat
  threads : List Thread
  deriving DecidableEq

/-- The `WaitStatus::Stopped` arm of `process_status`: finds the first
tracked thread with the stopping tid (an unknown tid is an error),
reads its registers via the `getregs` oracle, returns unchanged on a
non-ioctl syscall, otherwise toggles `in_syscall` and, exactly when
the ioctl request is `KVM_RUN`, reads the shared `kvm_run` page via
the `readKvmRun` oracle (tid, map start) and decodes an MMIO exit. -/
def processStopped (getregs : Nat → Except String Regs)
    (readKvmRun : Nat → Nat → Except String KvmRun)
    (pid : Nat) : List Thread → Except String (List Thread × Option MmioRw)
  | [] => .error "received stop for unkown process"
  | t :: rest =>
    if t.tid = pid then
      match getregs pid with
      | .error e => .error ("cannot syscall results: " ++ e)
      | .ok regs =>
        let params := regs.get_syscall_params
        if params.1 = SYS_ioctl then
          let t2 := t.toggle_in_syscall
          if params.2.2 = KVM_RUN then
            match readKvmRun pid t.vcpu_map.start with
            | .error e => .error e
            | .ok kvm_run => .ok (t2 :: rest, MmioRw.fromKvmRun kvm_run)
          else .ok (t2 :: rest, none)
        else .ok (t :: rest, none)
    else
      match processStopped getregs readKvmRun pid rest with
      | .error e => .error e
      | .ok (rest2, res) => .ok (t :: rest2, res)

/-- Rust `KvmRunWrapper::process_status(status)` (src/wrap_syscall.rs):
dispatch on the waitpid status.  `PtraceEvent`, `PtraceSyscall` and
`StillAlive` are logic errors; `Continued` is a no-op; `Stopped` is
handled by `processStopped`; `Exited` and `Signaled` are fatal (the
target VMM died).  The thread list is threaded explicitly in place of
`&mut self`. -/
def process_status (getregs : Nat → Except String Regs)
    (readKvmRun : Nat → Nat → Except String KvmRun)
    (threads : List Thread) (status : WaitStatus) :
    Except String (List Thread × Option MmioRw) :=
  match status with
  | .ptraceEvent _ _ _ => .error "got unexpected ptrace event"
  | .ptraceSyscall _ => .error "got unexpected ptrace syscall event"
  | .stillAlive => .error "got unexpected still-alive waitpid() event"
  | .continued _ => .ok (threads, none)
  | .stopped pid _ => processStopped getregs readKvmRun pid threads
  | .exited _ _ => .error "process exited"
  | .signaled _ _ _ => .error "process was stopped by signal"

/-- Rust `KvmRunWrapper::waitpid_busy` (src/wrap_syscall.rs): spins over
the tracked threads calling `waitpid(tid, WNOHANG)` until some call
yields a status other than `StillAlive`.  `calls` is the sequence of
successive oracle outcomes of those waitpid calls; an OS error aborts
immediately (`try_with!`), a `StillAlive` outcome continues the spin,
anything else is returned.  The empty-trace case stands for a spin
that never observes an event (the real loop would keep polling). -/
def waitpid_busy : List (Except String WaitStatus) → Except String WaitStatus
  | [] => .error "spin trace exhausted"
  | call :: rest =>
    match call with
    | .error e => .error ("cannot wait for ioctl syscall: " ++ e)
    | .ok status =>
      match status with
      | .stillAlive => waitpid_busy rest
      | _ => .ok status

/-- The thread-construction loop of `KvmRunWrapper::attach`: each
ptrace-attached tid gets `Thread::new(t, vcpu_maps[0].clone())`; the
indexing `vcpu_maps[0]` panics (embedded as an error) when the map
list is empty and a thread exists. -/
def mkThreads (vcpu_maps : List Mapping) : List Nat → Except String (List Thread)
  | [] => .ok []
  | tid :: rest =>
    match vcpu_maps with
    | [] => .error "index out of bounds: vcpu_maps"
    | vm0 :: _ =>
      match mkThreads vcpu_maps rest with
      | .error e => .error e
      | .ok ts => .ok (Thread.new tid vm0 :: ts)

/-- The verification loop of `KvmRunWrapper::attach`: for each thread,
fetch its own view of the VCPU maps via the `get_vcpu_maps` oracle
(an error propagates), then `assert_eq!(vcpu_maps[0].start,
maps[0].start)`; a failed assert or out-of-bounds index panics,
embedded as an error. -/
def check_vcpu_maps (get_vcpu_maps : Nat → Except String (List Mapping))
    (vcpu_maps : List Mapping) : List Thread → Except String Unit
  | [] => .ok ()
  | t :: rest =>
    match get_vcpu_maps t.tid with
    | .error e => .error e
    | .ok maps =>
      match vcpu_maps, maps with
      | [], _ => .error "index out of bounds: vcpu_maps"
      | _, [] => .error "index out of bounds: maps"
      | vm0 :: _, m0 :: _ =>
        if vm0.start = m0.start then
          check_vcpu_maps get_vcpu_maps vcpu_maps rest
        else .error "assertion failed: vcpu_maps[0].start == maps[0].start"

/-- Rust `KvmRunWrapper::attach(pid, vcpu_maps)` (src/wrap_syscall.rs):
`attach_all` is the oracle outcome of
`ptrace::attach_all_threads(pid)` (the attached tids and the index of
the main thread); every thread is given the main view `vcpu_maps[0]`,
and each thread's own view must have an identical start address
before the wrapper is returned. -/
def KvmRunWrapper.attach (vcpu_maps : List Mapping)
    (attach_all : Except String (List Nat × Nat))
    (get_vcpu_maps : Nat → Except String (List Mapping)) :
    Except String KvmRunWrapper :=
  match attach_all with
  | .error e => .error ("cannot attach KvmRunWrapper to all threads via ptrace: " ++ e)
  | .ok (tids, process_idx) =>
    match mkThreads vcpu_maps tids with
    | .error e => .error e
    | .ok threads =>
      match check_vcpu_maps get_vcpu_maps vcpu_maps threads with
      | .error e => .error e
      | .ok _ => .ok { process_idx := process_idx, threads := threads }

/-! ## Helper lemmas -/

/-- The fd scan collects exactly the fd numbers of the kvm-vm links, in
table order. -/
theorem collectFds_vm_links (fds : List FdInfo) :
    ∀ vms vcpus, collectFds fds = .ok (vms, vcpus) →
      (fds.filter (fun f => f.name.data == "anon_inode:kvm-vm".data)).map
        FdInfo.fd_num = vms := by
  induction fds with
  | nil =>
    intro vms vcpus h
    simp only [collectFds, Except.ok.injEq, Prod.mk.injEq] at h
    simp [← h.1]
  | cons fd rest ih =>
    intro vms vcpus h
    simp only [collectFds] at h
    by_cases hvm : (fd.name.data == "anon_inode:kvm-vm".data) = true
    · simp only [hvm, if_true] at h
      cases hc : collectFds rest with
      | error e => rw [hc] at h; cases h
      | ok p =>
        rw [hc] at h
        obtain ⟨vms2, vcpus2⟩ := p
        simp only [Except.ok.injEq, Prod.mk.injEq] at h
        simp [List.filter_cons, hvm, ← h.1, ih vms2 vcpus2 hc]
    · simp only [hvm, if_false, Bool.false_eq_true] at h
      by_cases hcpu :
          (List.isPrefixOf "anon_inode:kvm-vcpu:".data fd.name.data) = true
      · simp only [hcpu, if_true] at h
        cases hp : parseUsize (afterLastSep ':' fd.name.data) with
        | none => rw [hp] at h; cases h
        | some idx =>
          rw [hp] at h
          cases hc : collectFds rest with
          | error e => rw [hc] at h; cases h
          | ok p =>
            rw [hc] at h
            obtain ⟨vms2, vcpus2⟩ := p
            simp only [Except.ok.injEq, Prod.mk.injEq] at h
            simp [List.filter_cons, hvm, ← h.1, ih vms2 vcpus2 hc]
      · simp only [hcpu, if_false, Bool.false_eq_true] at h
        simp [List.filter_cons, hvm, ih vms vcpus h]

/-- `dedupByIdxAux` never lengthens a list. -/
theorem dedupByIdxAux_length_le (p : VCPU) (l : List VCPU) :
    (dedupByIdxAux p l).length ≤ l.length := by
  induction l generalizing p with
  | nil => simp [dedupByIdxAux]
  | cons v rest ih =>
    simp only [dedupByIdxAux]
    by_cases hp : p.idx = v.idx
    · simpa [hp] using Nat.le_succ_of_le (ih p)
    · simpa [hp] using ih v

/-- When `dedupByIdxAux` removes nothing it is the identity, and that
happens exactly when consecutive indices (seeded by the previous kept
element) differ. -/
theorem dedupByIdxAux_length_eq_iff (p : VCPU) (l : List VCPU) :
    (dedupByIdxAux p l).length = l.length ↔
      dedupByIdxAux p l = l ∧ List.Chain (fun a b => a.idx ≠ b.idx) p l := by
  induction l generalizing p with
  | nil => simp [dedupByIdxAux]
  | cons v rest ih =>
    simp only [dedupByIdxAux]
    by_cases hp : p.idx = v.idx
    · simp only [hp, if_true, ite_true]
      constructor
      · intro hlen
        exfalso
        have := dedupByIdxAux_length_le v rest
        have h2 := dedupByIdxAux_length_le p rest
        simp only [List.length_cons] at hlen
        omega
      · rintro ⟨-, hchain⟩
        cases hchain with
        | cons hne _ => exact absurd hp hne
    · simp only [hp, if_false, ite_false]
      constructor
      · intro hlen
        simp only [List.length_cons, Nat.succ.injEq] at hlen
        obtain ⟨heq, hchain⟩ := (ih v).mp hlen
        exact ⟨by simp [heq], List.Chain.cons hp hchain⟩
      · rintro ⟨heq, hchain⟩
        simp only [List.cons.injEq] at heq
        cases hchain with
        | cons _ hchain2 =>
          simp [List.length_cons, ((ih v).mpr ⟨heq.2, hchain2⟩)]

/-- `find_vm_fd` succeeds exactly with the scanned lists, and only when
no two consecutive VCPU entries share an index. -/
theorem find_vm_fd_ok (fds : List FdInfo) (vms : List Nat) (vcpus : List VCPU)
    (h : find_vm_fd fds = .ok (vms, vcpus)) :
    collectFds fds = .ok (vms, vcpus) ∧
      List.Chain' (fun a b => a.idx ≠ b.idx) vcpus := by
  unfold find_vm_fd at h
  split at h
  · cases h
  · rename_i vms2 vcpus2 hc
    split at h
    · cases h
    · rename_i hlen
      rw [ne_eq, not_not] at hlen
      simp only [Except.ok.injEq, Prod.mk.injEq] at h
      cases vcpus2 with
      | nil =>
        simp only [dedupByIdx] at h
        rw [hc, h.1, ← h.2]
        exact ⟨rfl, List.chain'_nil⟩
      | cons v rest =>
        simp only [dedupByIdx] at hlen h
        simp only [List.length_cons, Nat.succ.injEq] at hlen
        obtain ⟨heq, hchain⟩ := (dedupByIdxAux_length_eq_iff v rest).mp hlen
        rw [heq] at h
        rw [hc, h.1, ← h.2]
        exact ⟨rfl, hchain⟩

/-! ## Claim C1 -/

/-- An fd table with a non-adjacent duplicate VCPU index. -/
def fdsDupIdx : List FdInfo :=
  [⟨3, "anon_inode:kvm-vm"⟩, ⟨4, "anon_inode:kvm-vcpu:0"⟩,
   ⟨5, "anon_inode:kvm-vcpu:1"⟩, ⟨6, "anon_inode:kvm-vcpu:0"⟩]

/-- An fd table whose only VCPU has index 5. -/
def fdsSparseIdx : List FdInfo :=
  [⟨3, "anon_inode:kvm-vm"⟩, ⟨4, "anon_inode:kvm-vcpu:5"⟩]

/-- Claim C1 fails as stated: `get_hypervisor` succeeds on an fd table
whose VCPU indices are `[0, 1, 0]` (a duplicate index, because
`dedup_by_key` only removes adjacent duplicates), and succeeds on a
table whose only VCPU index is 5 (not dense from 0). -/
theorem get_hypervisor_accepts_dup_and_sparse :
    (get_hypervisor 1 fdsDupIdx []).toOption.map (fun h => h.vcpus.map VCPU.idx)
        = some [0, 1, 0] ∧
    ¬ List.Nodup [0, 1, 0] ∧
    (get_hypervisor 1 fdsSparseIdx []).toOption.map (fun h => h.vcpus.map VCPU.idx)
        = some [5] ∧
    (0 : Nat) ∉ [5] := by
  refine ⟨by decide, by decide, by decide, by decide⟩

/-- Claim C1 (amended): whenever `get_hypervisor` succeeds, the fd table
contains exactly one kvm-vm link (whose fd number is the stored
`vm_fd`), the VCPU list is nonempty, and no two CONSECUTIVE entries of
the VCPU list share an index; zero or multiple kvm-vm links, zero
VCPUs, or adjacent duplicate indices make it fail.  Non-adjacent
duplicate indices are not rejected, and the indices need not be dense
from 0. -/
theorem get_hypervisor_discovery (pid : Nat) (fds : List FdInfo)
    (maps : List Mapping) (h : Hypervisor)
    (hok : get_hypervisor pid fds maps = .ok h) :
    (fds.filter (fun f => f.name.data == "anon_inode:kvm-vm".data)).map
        FdInfo.fd_num = [h.vm_fd] ∧
    h.vcpus ≠ [] ∧
    List.Chain' (fun a b => a.idx ≠ b.idx) h.vcpus := by
  unfold get_hypervisor at hok
  split at hok
  · cases hok
  · rename_i vm_fds vcpus hfind
    split at hok
    · cases hok
    · rename_i vm_fd vm_rest
      split at hok
      · cases hok
      · rename_i hrest
        split at hok
        · cases hok
        · rename_i hvc
          rw [ne_eq, not_not] at hrest
          subst hrest
          obtain ⟨hcoll, hchain⟩ := find_vm_fd_ok fds (vm_fd :: []) vcpus hfind
          simp only [Except.ok.injEq] at hok
          subst hok
          exact ⟨collectFds_vm_links fds (vm_fd :: []) vcpus hcoll, hvc, hchain⟩

/-- A well-formed fd table: one VM and VCPUs 0 and 1. -/
def fdsGood : List FdInfo :=
  [⟨3, "anon_inode:kvm-vm"⟩, ⟨4, "anon_inode:kvm-vcpu:0"⟩,
   ⟨5, "anon_inode:kvm-vcpu:1"⟩]

/-- The hypervisor handle that discovery produces on `fdsGood`. -/
def hvGood : Hypervisor :=
  { pid := 1, vm_fd := 3, vcpus := [⟨0, 4⟩, ⟨1, 5⟩], mappings := [] }

/-- Witness: the amended C1 theorem applied to the concrete table
`fdsGood`. -/
theorem get_hypervisor_discovery_witness :
    (fdsGood.filter (fun f => f.name.data == "anon_inode:kvm-vm".data)).map
        FdInfo.fd_num = [hvGood.vm_fd] ∧
    hvGood.vcpus ≠ [] ∧
    List.Chain' (fun a b => a.idx ≠ b.idx) hvGood.vcpus :=
  get_hypervisor_discovery 1 fdsGood [] hvGood rfl

/-! ## Claim C2 -/

/-- Claim C2 fails as stated: the constant
`FIRST_ADDR_PAST_32BITS - MEM_32BIT_GAP_SIZE` is
`2^32 - 768 MiB = 0xD000_0000`, not `0xC000_0000` (which would be
`2^32 - 1024 MiB`). -/
theorem mmio_mem_start_value :
    MMIO_MEM_START = 0xD0000000 ∧ MMIO_MEM_START ≠ 0xC0000000 := by
  refine ⟨by decide, by decide⟩

/-- Claim C2 (amended): the injected virtio-MMIO device window is placed
at `MMIO_MEM_START = FIRST_ADDR_PAST_32BITS - MEM_32BIT_GAP_SIZE =
0xD000_0000`, and `Device::new` registers a 0x1000-byte MMIO range at
that address with GSI 5. -/
theorem mmio_device_placement :
    MMIO_MEM_START = FIRST_ADDR_PAST_32BITS - MEM_32BIT_GAP_SIZE ∧
    MMIO_MEM_START = 0xD0000000 ∧
    device_new_mmio_cfg.range.base = MMIO_MEM_START ∧
    device_new_mmio_cfg.range.size = 0x1000 ∧
    device_new_mmio_cfg.gsi = 5 := by
  refine ⟨rfl, by decide, rfl, rfl, rfl⟩

/-! ## Claim C3 -/

/-- Claim C3: `MmioRw::from` yields a value exactly when the exit reason
is `KVM_EXIT_MMIO`, and the decoded value copies the raw mmio fields
verbatim: the address, the write flag (nonzero byte), the 8-byte data
array and the length; any other exit reason yields `None`. -/
theorem mmioRw_from_exit_reason (kr : KvmRun) :
    ((MmioRw.fromKvmRun kr).isSome = true ↔ kr.exit_reason = KVM_EXIT_MMIO) ∧
    (∀ m, MmioRw.fromKvmRun kr = some m →
      m.addr = kr.mmio.phys_addr ∧
      (m.is_write = true ↔ kr.mmio.is_write ≠ 0) ∧
      m.data = kr.mmio.data ∧
      m.len = kr.mmio.len) ∧
    (kr.exit_reason ≠ KVM_EXIT_MMIO → MmioRw.fromKvmRun kr = none) := by
  unfold MmioRw.fromKvmRun
  by_cases hexit : kr.exit_reason = KVM_EXIT_MMIO
  · rw [if_pos hexit]
    refine ⟨⟨fun _ => hexit, fun _ => rfl⟩, ?_, fun hne => absurd hexit hne⟩
    intro m hm
    rw [← Option.some.inj hm]
    exact ⟨rfl, by simp [MmioRw.new, bne_iff_ne], rfl, rfl⟩
  · rw [if_neg hexit]
    refine ⟨⟨fun hs => ?_, fun he => absurd he hexit⟩,
      fun m hm => Option.noConfusion hm, fun _ => rfl⟩
    simp at hs

/-- A `kvm_run` with an MMIO exit reason (the S4 scenario write of
0xDEADBEEF to 0xC0000000). -/
def krMmio : KvmRun :=
  { exit_reason := 6
    mmio :=
      { phys_addr := 0xC0000000, is_write := 1
        data := [0xEF, 0xBE, 0xAD, 0xDE, 0, 0, 0, 0], len := 4
        data_len := rfl } }

/-- A `kvm_run` with a non-MMIO exit reason. -/
def krHlt : KvmRun :=
  { exit_reason := 5
    mmio :=
      { phys_addr := 0, is_write := 0
        data := [0, 0, 0, 0, 0, 0, 0, 0], len := 0
        data_len := rfl } }

/-- Witness: the C3 theorem applied at an MMIO exit and at a non-MMIO
exit. -/
theorem mmioRw_from_exit_reason_witness :
    (MmioRw.fromKvmRun krMmio).isSome = true ∧ MmioRw.fromKvmRun krHlt = none :=
  ⟨(mmioRw_from_exit_reason krMmio).1.mpr rfl,
   (mmioRw_from_exit_reason krHlt).2.2 (by decide)⟩

/-! ## Claim C4 -/

/-- A raw mmio record with an out-of-range length field. -/
def rawBadLen : MmioRwRaw :=
  { phys_addr := 0, is_write := 0, data := [0, 0, 0, 0, 0, 0, 0, 0]
    len := 9, data_len := rfl }

/-- Claim C4 fails as stated: `MmioRw::new` performs no sanity check on
the raw length (the source notes this), so a raw record with
`len = 9` produces an `MmioRw` whose stored length is outside
`1..=8`, on which `data()` indexes out of bounds (the embedded slice
is `none`, standing for the Rust panic). -/
theorem mmioRw_new_unchecked_len :
    (MmioRw.new rawBadLen).len = 9 ∧
    ¬ (1 ≤ (MmioRw.new rawBadLen).len ∧ (MmioRw.new rawBadLen).len ≤ 8) ∧
    (MmioRw.new rawBadLen).dataSlice = none := by
  refine ⟨rfl, by decide, rfl⟩

/-- Claim C4 (amended): `MmioRw::new` stores the raw length verbatim;
`data()` is in bounds exactly when that length is at most 8 (which
the kernel guarantees for genuine MMIO exits but the code does not
enforce), and panics (embedded `none`) when it exceeds 8. -/
theorem mmioRw_new_len_verbatim (raw : MmioRwRaw) :
    (MmioRw.new raw).len = raw.len ∧
    (raw.len ≤ 8 →
      (MmioRw.new raw).dataSlice = some (raw.data.take raw.len)) ∧
    (8 < raw.len → (MmioRw.new raw).dataSlice = none) := by
  unfold MmioRw.new MmioRw.dataSlice
  refine ⟨rfl, ?_, ?_⟩
  · intro hle
    simp [raw.data_len, hle]
  · intro hgt
    simp only [raw.data_len]
    have : ¬ raw.len ≤ 8 := by omega
    simp [this]

/-- Witness: the amended C4 theorem applied to the in-range raw record
of `krMmio`. -/
theorem mmioRw_new_len_verbatim_witness :
    (MmioRw.new krMmio.mmio).len = krMmio.mmio.len ∧
    (MmioRw.new krMmio.mmio).dataSlice
      = some (krMmio.mmio.data.take krMmio.mmio.len) :=
  ⟨(mmioRw_new_len_verbatim krMmio.mmio).1,
   (mmioRw_new_len_verbatim krMmio.mmio).2.1 (by decide)⟩

/-! ## Claim C5 -/

/-- Claim C5: `Hypervisor::read`/`write` request exactly
`size_of::<T>()` bytes; success implies the vectored call transferred
exactly that many, and any shorter transfer is reported as an error. -/
theorem hypervisor_rw_exact
    (readv : Nat → Nat → Except String (Nat × List Nat))
    (writev : Nat → List Nat → Except String Nat)
    (addr n : Nat) (val : List Nat) :
    (∀ bytes, hypervisor_read readv addr n = .ok bytes →
      readv addr n = .ok (n, bytes)) ∧
    (∀ f bytes, readv addr n = .ok (f, bytes) → f < n →
      isErr (hypervisor_read readv addr n) = true) ∧
    (hypervisor_write writev addr val = .ok () →
      writev addr val = .ok val.length) ∧
    (∀ f, writev addr val = .ok f → f < val.length →
      isErr (hypervisor_write writev addr val) = true) := by
  refine ⟨?_, ?_, ?_, ?_⟩
  · intro bytes h
    unfold hypervisor_read at h
    split at h
    · cases h
    · rename_i f bs hr
      split at h
      · cases h
      · rename_i hf
        rw [ne_eq, not_not] at hf
        cases h
        rw [hr, hf]
  · intro f bytes hr hlt
    have hf : f ≠ n := by omega
    unfold hypervisor_read
    rw [hr]
    simp [isErr, hf]
  · intro h
    unfold hypervisor_write at h
    split at h
    · cases h
    · rename_i f hw
      split at h
      · cases h
      · rename_i hf
        rw [ne_eq, not_not] at hf
        rw [hw, hf]
  · intro f hw hlt
    have hf : f ≠ val.length := by omega
    unfold hypervisor_write
    rw [hw]
    simp [isErr, hf]

/-- A readv oracle that always transfers the full request. -/
def readvExact : Nat → Nat → Except String (Nat × List Nat) :=
  fun _ n => .ok (n, [1, 2, 3, 4])

/-- A writev oracle that always transfers the full request. -/
def writevExact : Nat → List Nat → Except String Nat :=
  fun _ v => .ok v.length

/-- Witness: the C5 theorem applied to oracles that transfer in full. -/
theorem hypervisor_rw_exact_witness :
    readvExact 0 4 = .ok (4, [1, 2, 3, 4]) ∧ writevExact 0 [1, 2] = .ok 2 :=
  ⟨(hypervisor_rw_exact readvExact writevExact 0 4 [1, 2]).1 [1, 2, 3, 4] rfl,
   (hypervisor_rw_exact readvExact writevExact 0 4 [1, 2]).2.2.1 rfl⟩

/-! ## Claim C6 -/

/-- A VCPU mmap region for the interception examples. -/
def mapC6 : Mapping := ⟨0x7f1200⟩

/-- A tracked VCPU thread not currently inside a syscall. -/
def thrC6 : Thread :=
  { tid := 7, vcpu_map := mapC6, is_running := true, in_syscall := false }

/-- A register oracle showing `ioctl(10, TCGETS)` — an ioctl whose
request 0x5401 is not `KVM_RUN`. -/
def getregsIoctlTcgets : Nat → Except String Regs :=
  fun _ => .ok { regsZero with rax := 16, rdi := 10, rsi := 0x5401 }

/-- A shared-page oracle that is never consulted. -/
def readRunUnused : Nat → Nat → Except String KvmRun :=
  fun _ _ => .error "unused"

/-- Claim C6 fails as stated: a stop whose registers show an ioctl with
request 0x5401 (TCGETS, not `KVM_RUN`) still toggles `in_syscall`
from false to true — the toggle precedes the `KVM_RUN` comparison. -/
theorem process_status_toggles_on_foreign_ioctl :
    process_status getregsIoctlTcgets readRunUnused [thrC6]
        (WaitStatus.stopped 7 5)
      = .ok ([{ thrC6 with in_syscall := true }], none) ∧
    (0x5401 : Nat) ≠ KVM_RUN ∧
    thrC6.in_syscall = false :=
  ⟨rfl, by decide, rfl⟩

/-- Claim C6 (amended): `in_syscall` starts false at `Thread::new` and,
on a stop of a tracked tid whose registers are readable, is toggled
exactly when the syscall number is `SYS_ioctl` — for EVERY ioctl
request, not only `KVM_RUN`; non-ioctl stops leave the threads
unchanged.  The `KVM_RUN` comparison only routes the shared-page read
and the MMIO decoding. -/
theorem in_syscall_toggle_spec
    (getregs : Nat → Except String Regs)
    (readKvmRun : Nat → Nat → Except String KvmRun)
    (tid0 : Nat) (vm : Mapping) (t : Thread) (rest : List Thread)
    (pid sig : Nat) (regs : Regs)
    (hm : t.tid = pid) (hg : getregs pid = .ok regs) :
    (Thread.new tid0 vm).in_syscall = false ∧
    (regs.get_syscall_params.1 ≠ SYS_ioctl →
      process_status getregs readKvmRun (t :: rest) (.stopped pid sig)
        = .ok (t :: rest, none)) ∧
    (regs.get_syscall_params.1 = SYS_ioctl →
      ∀ out, process_status getregs readKvmRun (t :: rest) (.stopped pid sig)
          = .ok out → out.1 = t.toggle_in_syscall :: rest) ∧
    (regs.get_syscall_params.1 = SYS_ioctl →
      regs.get_syscall_params.2.2 ≠ KVM_RUN →
      process_status getregs readKvmRun (t :: rest) (.stopped pid sig)
        = .ok (t.toggle_in_syscall :: rest, none)) := by
  subst hm
  refine ⟨rfl, ?_, ?_, ?_⟩
  · intro hnr
    simp only [process_status, processStopped, hg, eq_self_iff_true, ite_true]
    rw [if_neg hnr]
  · intro hnr out hout
    simp only [process_status, processStopped, hg, eq_self_iff_true,
      ite_true] at hout
    rw [if_pos hnr] at hout
    split at hout
    · split at hout
      · cases hout
      · cases hout
        rfl
    · cases hout
      rfl
  · intro hnr hreq
    simp only [process_status, processStopped, hg, eq_self_iff_true, ite_true]
    rw [if_pos hnr, if_neg hreq]

/-- Witness: the amended C6 theorem applied to the TCGETS stop. -/
theorem in_syscall_toggle_spec_witness :
    process_status getregsIoctlTcgets readRunUnused [thrC6]
        (WaitStatus.stopped 7 5)
      = .ok (thrC6.toggle_in_syscall :: [], none) :=
  (in_syscall_toggle_spec getregsIoctlTcgets readRunUnused 9 mapC6 thrC6 []
      7 5 { regsZero with rax := 16, rdi := 10, rsi := 0x5401 }
      rfl rfl).2.2.2 (by decide) (by decide)

/-! ## Claim C7 -/

/-- Claim C7: `process_status` returns an error on `Exited` and
`Signaled` (the target VMM died) and on `PtraceEvent`,
`PtraceSyscall` and `StillAlive` (logic errors) — none of the five
ever yields `Ok`. -/
theorem process_status_fatal_and_logic_errors
    (getregs : Nat → Except String Regs)
    (readKvmRun : Nat → Nat → Except String KvmRun)
    (threads : List Thread) (p st sig ev : Nat) (core : Bool) :
    isErr (process_status getregs readKvmRun threads (.exited p st)) = true ∧
    isErr (process_status getregs readKvmRun threads
      (.signaled p sig core)) = true ∧
    isErr (process_status getregs readKvmRun threads
      (.ptraceEvent p sig ev)) = true ∧
    isErr (process_status getregs readKvmRun threads
      (.ptraceSyscall p)) = true ∧
    isErr (process_status getregs readKvmRun threads
      WaitStatus.stillAlive) = true :=
  ⟨rfl, rfl, rfl, rfl, rfl⟩

/-! ## Claim C8 -/

/-- Claim C8 fails as stated: neither EINTR from waitpid nor EAGAIN from
the vectored read is retried — the very first occurrence aborts the
operation, even though an immediate retry (the same trace without the
error) would have produced a status. -/
theorem transient_errors_abort_immediately :
    isErr (waitpid_busy [Except.error "EINTR",
      Except.ok (WaitStatus.stopped 7 5)]) = true ∧
    waitpid_busy [Except.ok (WaitStatus.stopped 7 5)]
      = Except.ok (WaitStatus.stopped 7 5) ∧
    isErr (hypervisor_read (fun _ _ => Except.error "EAGAIN") 0 4) = true :=
  ⟨rfl, rfl, rfl⟩

/-- Claim C8 (amended): transient OS errors are not retried: an error
outcome of any single waitpid poll aborts `waitpid_busy` at once, and
an error outcome of `process_vm_readv` aborts `Hypervisor::read` at
once. -/
theorem transient_errors_propagate (e : String)
    (rest : List (Except String WaitStatus))
    (readv : Nat → Nat → Except String (Nat × List Nat)) (addr n : Nat)
    (hr : readv addr n = .error e) :
    waitpid_busy (Except.error e :: rest)
      = Except.error ("cannot wait for ioctl syscall: " ++ e) ∧
    hypervisor_read readv addr n
      = Except.error ("cannot read hypervisor memory: " ++ e) := by
  refine ⟨rfl, ?_⟩
  unfold hypervisor_read
  rw [hr]

/-- Witness: the amended C8 theorem applied to an EAGAIN oracle. -/
theorem transient_errors_propagate_witness :
    waitpid_busy [Except.error "EAGAIN"]
      = Except.error ("cannot wait for ioctl syscall: " ++ "EAGAIN") ∧
    hypervisor_read (fun _ _ => Except.error "EAGAIN") 1 8
      = Except.error ("cannot read hypervisor memory: " ++ "EAGAIN") :=
  transient_errors_propagate "EAGAIN" [] (fun _ _ => Except.error "EAGAIN")
    1 8 rfl

/-! ## Claim C9 -/

/-- If the per-thread verification loop of `attach` succeeds, every
checked thread's own first VCPU map starts where the main view
`vcpu_maps[0]` starts. -/
theorem check_vcpu_maps_ok (gvm : Nat → Except String (List Mapping))
    (vcpu_maps : List Mapping) (ts : List Thread)
    (h : check_vcpu_maps gvm vcpu_maps ts = .ok ()) :
    ∀ t ∈ ts, ∃ vm0 vrest m0 mrest,
      vcpu_maps = vm0 :: vrest ∧ gvm t.tid = .ok (m0 :: mrest) ∧
      m0.start = vm0.start := by
  induction ts with
  | nil => intro t ht; cases ht
  | cons t2 rest2 ih =>
    intro t ht
    simp only [check_vcpu_maps] at h
    split at h
    · cases h
    · rename_i maps hgvm
      split at h
      · cases h
      · cases h
      · rename_i vm0 vtail m0 mtail
        split at h
        · rename_i hstart
          rcases List.mem_cons.mp ht with h1 | h2
          · subst h1
            exact ⟨vm0, vtail, m0, mtail, rfl, hgvm, hstart.symm⟩
          · exact ih h t h2
        · cases h

/-- Claim C9: whenever `KvmRunWrapper::attach` succeeds, every tracked
thread's own view of the VCPU mmap region (the first entry of its
`/proc/tid/maps` scan) starts at the same address as the main view
`vcpu_maps[0]`; a mismatching start makes the assert fail and attach
abort. -/
theorem attach_checks_vcpu_map_start
    (vcpu_maps : List Mapping) (attach_all : Except String (List Nat × Nat))
    (gvm : Nat → Except String (List Mapping)) (w : KvmRunWrapper)
    (hw : KvmRunWrapper.attach vcpu_maps attach_all gvm = .ok w) :
    ∀ t ∈ w.threads, ∃ vm0 vrest m0 mrest,
      vcpu_maps = vm0 :: vrest ∧ gvm t.tid = .ok (m0 :: mrest) ∧
      m0.start = vm0.start := by
  unfold KvmRunWrapper.attach at hw
  split at hw
  · cases hw
  · split at hw
    · cases hw
    · rename_i threads hmk
      split at hw
      · cases hw
      · rename_i u hcheck
        cases u
        cases hw
        intro t ht
        exact check_vcpu_maps_ok gvm vcpu_maps threads hcheck t ht

/-- The main view of the VCPU mmap region for the witness. -/
def mapsC9 : List Mapping := [⟨0x70000⟩]

/-- A per-thread maps oracle agreeing with the main view. -/
def gvmC9 : Nat → Except String (List Mapping) := fun _ => .ok [⟨0x70000⟩]

/-- The wrapper produced by the witness attach. -/
def wC9 : KvmRunWrapper :=
  { process_idx := 0, threads := [Thread.new 7 ⟨0x70000⟩] }

/-- Witness: the C9 theorem applied to a one-thread attach whose views
agree. -/
theorem attach_checks_vcpu_map_start_witness :
    ∃ vm0 vrest m0 mrest, mapsC9 = vm0 :: vrest ∧
      gvmC9 (Thread.new 7 ⟨0x70000⟩).tid = .ok (m0 :: mrest) ∧
      m0.start = vm0.start :=
  attach_checks_vcpu_map_start mapsC9 (.ok ([7], 0)) gvmC9 wC9 rfl
    (Thread.new 7 ⟨0x70000⟩) (by decide)

/-! ## Claim C10 -/

/-- Claim C10: `Tracee::get_regs` returns `Ok` of a register file whose
every field is zero, for every VCPU argument, and is a constant
function — it never reads the actual register state of the target. -/
theorem get_regs_all_zero (v w : VCPU) :
    Tracee.get_regs v = Except.ok regsZero ∧
    Tracee.get_regs v = Tracee.get_regs w ∧
    (regsZero.r15 = 0 ∧ regsZero.r14 = 0 ∧ regsZero.r13 = 0 ∧
     regsZero.r12 = 0 ∧ regsZero.rbp = 0 ∧ regsZero.rbx = 0 ∧
     regsZero.r11 = 0 ∧ regsZero.r10 = 0 ∧ regsZero.r9 = 0 ∧
     regsZero.r8 = 0 ∧ regsZero.rax = 0 ∧ regsZero.rcx = 0 ∧
     regsZero.rdx = 0 ∧ regsZero.rsi = 0 ∧ regsZero.rdi = 0 ∧
     regsZero.orig_rax = 0 ∧ regsZero.rip = 0 ∧ regsZero.cs = 0 ∧
     regsZero.eflags = 0 ∧ regsZero.rsp = 0 ∧ regsZero.ss = 0 ∧
     regsZero.fs_base = 0 ∧ regsZero.gs_base = 0 ∧ regsZero.ds = 0 ∧
     regsZero.es = 0 ∧ regsZero.fs = 0 ∧ regsZero.gs = 0) :=
  ⟨rfl, rfl, by decide⟩

end Vmsh
